import Mathlib

/-!
Shallow embedding of the room lifecycle layer of the Airbnb-Clone repository
(src/rooms/views.py), together with proofs about its behaviour.

The persistent store (Django ORM rows for Amenity, Category, Room, Booking) is
modelled as an explicit state record.  Each view method becomes a pure function
from the store, the requester and the request input to a new store and an HTTP
result.  A `transaction.atomic()` block is embedded by its observable
semantics: if the block completes, the final state is committed; if any
exception escapes the block, the pre-transaction state is returned unchanged
(full rollback), and the handler that catches the exception determines the
error response.  Django REST framework pieces that live outside this
repository (the IsAuthenticatedOrReadOnly permission class, serializer schema
validation) are embedded by their documented behaviour, noted at each site.
-/

namespace AirbnbClone

/-- Category.CategoryKindChoices (categories/models.py, referenced at
src/rooms/views.py lines 82 and 132): a closed enumeration of the two kinds. -/
inductive CategoryKind where
  | rooms
  | experiences
deriving DecidableEq

/-- An Amenity row: identity plus descriptive attributes (rooms/models.py). -/
structure Amenity where
  id : Nat
  aname : String
deriving DecidableEq

/-- A Category row: identity and kind. -/
structure Category where
  id : Nat
  kind : CategoryKind
deriving DecidableEq

/-- Booking.BookingKindChoices (bookings/models.py, referenced at
src/rooms/views.py lines 251 and 259). -/
inductive BookingKind where
  | room
  | experience
deriving DecidableEq

/-- A Booking row.  Dates are modelled as day numbers (Nat). -/
structure Booking where
  id : Nat
  room : Nat
  user : Nat
  kind : BookingKind
  check_in : Nat
  check_out : Nat
deriving DecidableEq

/-- A Room row.  `owner` and `category` are foreign keys by id; `amenities` is
the many-to-many set (a Django M2M relation holds each pair at most once, so it
is a Finset of amenity ids); `rname` stands for the plain descriptive
attributes (name, price, ...) that the serializer writes. -/
structure Room where
  id : Nat
  owner : Nat
  category : Option Nat
  rname : String
  amenities : Finset Nat
deriving DecidableEq

/-- The persistent store: one list of rows per model, plus the id the next
created Room receives. -/
structure Store where
  amenities : List Amenity
  categories : List Category
  rooms : List Room
  bookings : List Booking
  nextRoomId : Nat
deriving DecidableEq

/-- The DRF exceptions raised by the views in src/rooms/views.py:
NotFound (404), NotAuthenticated (401), PermissionDenied (403) and
ParseError (400, a validation failure carrying a message). -/
inductive ApiError where
  | notFound
  | notAuthenticated
  | permissionDenied
  | parseError (msg : String)
deriving DecidableEq

/-- Response bodies the room views produce. -/
inductive Body where
  | room (r : Room)
  | roomList (rs : List Room)
  | bookings (bs : List Booking)
  | errors
deriving DecidableEq

/-- The outcome of a view call: a 200 response with a body, a 400 response
carrying serializer.errors, a raised DRF exception, or a 204. -/
inductive Result where
  | ok (body : Body)
  | badRequest
  | err (e : ApiError)
  | noContent
deriving DecidableEq

/-- Modelled from the spec: rooms/serializers.py (RoomDetailSerializer) is not
under src/.  Per the spec it validates input against the Room schema (required
fields, types); that verdict is carried as the opaque boolean `schema_valid`.
The serializer itself persists only the plain descriptive attributes
(modelled by `rname`); owner, category and amenities are attached explicitly
by the view, which is why the view passes them to serializer.save. -/
structure RoomCreateInput where
  schema_valid : Bool
  rname : String
  category : Option Nat
  amenities : Option (List Nat)
deriving DecidableEq

/-- Modelled from the spec, as for RoomCreateInput: the partial-update input of
RoomDetail.put.  `rname = none` means the descriptive field is absent from the
body; `amenities = none` models a body with no amenities key (or a value the
loop cannot iterate). -/
structure RoomUpdateInput where
  schema_valid : Bool
  rname : Option String
  category : Option Nat
  amenities : Option (List Nat)
deriving DecidableEq

/-- The amenity-attachment loop of Rooms.post (src/rooms/views.py lines 93-95):
for each identifier, Amenity.objects.get either raises DoesNotExist (modelled
as `none`, making the enclosing transaction roll back) or yields the row,
which is added to room.amenities. -/
def attachAmenities (s : Store) (room : Room) : List Nat → Option Room
  | [] => some room
  | pk :: rest =>
    match s.amenities.find? (fun a => a.id == pk) with
    | none => none
    | some a => attachAmenities s { room with amenities := insert a.id room.amenities } rest

/-- Rooms.post (src/rooms/views.py lines 74-101).  The requester is `none` for
an anonymous caller; IsAuthenticatedOrReadOnly (declared at line 67, semantics
from DRF) rejects an anonymous POST with NotAuthenticated before the handler
runs.  The `match` on `input.category` mirrors `if not category_pk` at line 78
(absent and the falsy id 0 both fail).  The transaction.atomic() block at
lines 87-97 commits only if the whole body succeeds; any exception inside it
(missing amenity row, or a non-iterable amenities value) reaches the
`except Exception` at line 98, after the rollback, and becomes
ParseError "Amenity not found". -/
def roomsPost (s : Store) (requester : Option Nat) (input : RoomCreateInput) :
    Store × Result :=
  match requester with
  | none => (s, .err .notAuthenticated)
  | some user =>
    if input.schema_valid = false then
      (s, .badRequest)
    else
      match input.category with
      | none => (s, .err (.parseError "Category is required."))
      | some category_pk =>
        if category_pk = 0 then (s, .err (.parseError "Category is required."))
        else
        match s.categories.find? (fun c => c.id == category_pk) with
        | none => (s, .err (.parseError "Category not found"))
        | some category =>
          if category.kind = .experiences then
            (s, .err (.parseError "The category kind should be \x27rooms\x27."))
          else
            let room0 : Room :=
              { id := s.nextRoomId, owner := user, category := some category.id,
                rname := input.rname, amenities := ∅ }
            match input.amenities with
            | none => (s, .err (.parseError "Amenity not found"))
            | some ids =>
              match attachAmenities s room0 ids with
              | none => (s, .err (.parseError "Amenity not found"))
              | some room =>
                ({ s with rooms := s.rooms ++ [room], nextRoomId := s.nextRoomId + 1 },
                  .ok (.room room))

/-- Rooms.get (src/rooms/views.py lines 69-72): serializes every Room row.
The query parameters are accepted (as the raw list of key-value pairs of the
URL) but the handler never reads them. -/
def roomsGet (s : Store) (_queryParams : List (String × String)) : Store × Result :=
  (s, .ok (.roomList s.rooms))

/-- The fetch loop of the amenities branch of RoomDetail.put
(src/rooms/views.py lines 141-142): `for amenity_pk in amenities:` rebinds the
variable `amenity` to each fetched row in turn, so on success the loop leaves
only the LAST fetched row bound; a missing row raises DoesNotExist (`none`).
The list is split as head and tail because the branch runs only when
`amenities` is truthy, hence nonempty. -/
def fetchLoop (s : Store) (first : Nat) : List Nat → Option Amenity
  | [] => s.amenities.find? (fun a => a.id == first)
  | pk :: rest2 =>
    match s.amenities.find? (fun a => a.id == first) with
    | none => none
    | some _ => fetchLoop s pk rest2

/-- The body of the transaction.atomic() block of RoomDetail.put
(src/rooms/views.py lines 128-145), acting on one Room row.  Both names
new_room and updated_room produced by serializer.save refer to the same row,
so the function tracks a single evolving Room.  The outcome is `none` when an
exception escapes the block (Category.DoesNotExist at line 131, the ParseError
at line 133 — caught by the blanket `except Exception` at line 146 — or
Amenity.DoesNotExist at line 142): the transaction then rolls back and the
handler raises ParseError "Amenity not Found".  Otherwise the outcome is the
committed row together with a flag: `true` when the amenities branch returned
the serialized room (line 145), `false` when the block fell through and the
try/else clause returns serializer.errors (line 149).  In the amenities
branch the row is cleared (line 140) and then — because line 143 sits outside
the for loop — only the last fetched amenity is added. -/
def putTxn (s : Store) (room : Room) (input : RoomUpdateInput) :
    Option (Room × Bool) :=
  let new_room : Room := { room with rname := input.rname.getD room.rname }
  let step2 : Option Room :=
    match input.category with
    | none => some new_room
    | some category_pk =>
      if category_pk = 0 then some new_room
      else
      match s.categories.find? (fun c => c.id == category_pk) with
      | none => none
      | some category =>
        if category.kind ≠ .rooms then none
        else some { new_room with category := some category.id }
  match step2 with
  | none => none
  | some updated_room =>
    match input.amenities with
    | none => some (updated_room, false)
    | some [] => some (updated_room, false)
    | some (pk :: rest) =>
      match fetchLoop s pk rest with
      | none => none
      | some last =>
        some ({ updated_room with amenities := {last.id} }, true)

/-- RoomDetail.put (src/rooms/views.py lines 120-151).  Order of checks:
IsAuthenticatedOrReadOnly (line 107, semantics from DRF) rejects an anonymous
PUT with NotAuthenticated; get_object (line 121) raises NotFound for a missing
id; the ownership check (lines 122-123) raises PermissionDenied; then — the
slip at lines 150-151 — an input that fails serializer validation raises
NotAuthenticated instead of returning the 400 errors response.  On a valid
input the transaction body runs: rollback yields ParseError "Amenity not
Found" with the store unchanged; a commit replaces the room row and the
response is the serialized room or serializer.errors per the putTxn flag. -/
def roomDetailPut (s : Store) (requester : Option Nat) (pk : Nat)
    (input : RoomUpdateInput) : Store × Result :=
  match requester with
  | none => (s, .err .notAuthenticated)
  | some user =>
    match s.rooms.find? (fun r => r.id == pk) with
    | none => (s, .err .notFound)
    | some room =>
      if room.owner ≠ user then (s, .err .permissionDenied)
      else if input.schema_valid = false then (s, .err .notAuthenticated)
      else
        match putTxn s room input with
        | none => (s, .err (.parseError "Amenity not Found"))
        | some (finalRoom, returnedRoom) =>
          let committed : Store :=
            { s with rooms := s.rooms.map (fun r => if r.id == pk then finalRoom else r) }
          if returnedRoom then (committed, .ok (.room finalRoom))
          else (committed, .ok .errors)

/-- RoomDetail.delete (src/rooms/views.py lines 153-161): same gate, lookup
and ownership checks as put, then the row is deleted and 204 returned. -/
def roomDetailDelete (s : Store) (requester : Option Nat) (pk : Nat) :
    Store × Result :=
  match requester with
  | none => (s, .err .notAuthenticated)
  | some user =>
    match s.rooms.find? (fun r => r.id == pk) with
    | none => (s, .err .notFound)
    | some room =>
      if room.owner ≠ user then (s, .err .permissionDenied)
      else ({ s with rooms := s.rooms.filter (fun r => r.id != pk) }, .noContent)

/-- The queryset of RoomBookings.get (src/rooms/views.py line 251):
Booking.objects.filter(room=room, kind=ROOM, check_in__gt=now). -/
def upcomingRoomBookings (s : Store) (room : Room) (today : Nat) : List Booking :=
  s.bookings.filter
    (fun b => decide (b.room = room.id ∧ b.kind = BookingKind.room ∧ today < b.check_in))

/-- RoomBookings.get (src/rooms/views.py lines 248-253).  `today` is the
local calendar date computed at line 250; get_object raises NotFound for a
missing room id. -/
def roomBookingsGet (s : Store) (pk : Nat) (today : Nat) : Store × Result :=
  match s.rooms.find? (fun r => r.id == pk) with
  | none => (s, .err .notFound)
  | some room => (s, .ok (.bookings (upcomingRoomBookings s room today)))

/-- Modelled from the spec: the Booking model (bookings/models.py) is not
under src/ — only this caller is.  The spec states the listing is "ordered by
check_in ascending", which in the implementation is the default ordering the
booking table delivers; the table is therefore modelled as kept sorted by
check_in. -/
abbrev bookingsSortedByCheckIn (s : Store) : Prop :=
  List.Sorted (fun a b => a.check_in ≤ b.check_in) s.bookings

/-- Pagination as the words of the spec describe it for GET /rooms (claim-side
definition, for comparison with roomsGet, which the source implements without
any pagination): page p of size n is the slice [(p-1)*n, p*n). -/
def paginate (pageSize page : Nat) (l : List Room) : List Room :=
  (l.drop ((page - 1) * pageSize)).take pageSize

/-- The room row a successful Rooms.post creates from a store, a requester, the
descriptive input and the resolved category and amenity identifier list. -/
def createdRoom (s : Store) (user : Nat) (rn : String) (cat : Category)
    (ids : List Nat) : Room :=
  { id := s.nextRoomId, owner := user, category := some cat.id, rname := rn,
    amenities := ids.toFinset }

/-! Concrete fixtures used to evaluate the embedding at explicit inputs. -/

def amWifi : Amenity := { id := 1, aname := "wifi" }

def amTv : Amenity := { id := 2, aname := "tv" }

def amSauna : Amenity := { id := 3, aname := "sauna" }

def catRooms : Category := { id := 1, kind := .rooms }

def catExperiences : Category := { id := 2, kind := .experiences }

/-- A room owned by user 5 with amenity set {wifi, tv}. -/
def roomCabin : Room :=
  { id := 10, owner := 5, category := some 1, rname := "cabin", amenities := {1, 2} }

def baseStore : Store :=
  { amenities := [amWifi, amTv, amSauna], categories := [catRooms, catExperiences],
    rooms := [roomCabin], bookings := [], nextRoomId := 11 }

/-- Update input replacing the amenity set by {tv, sauna}. -/
def updateAmenitiesBC : RoomUpdateInput :=
  { schema_valid := true, rname := none, category := none, amenities := some [2, 3] }

/-- Valid update input renaming the room, with no amenities key in the body. -/
def updateNameOnly : RoomUpdateInput :=
  { schema_valid := true, rname := some "villa", category := none, amenities := none }

/-- An update body that fails serializer schema validation. -/
def invalidBodyInput : RoomUpdateInput :=
  { schema_valid := false, rname := none, category := none, amenities := none }

/-- Create input listing amenity 1 twice. -/
def createWithDupAmenities : RoomCreateInput :=
  { schema_valid := true, rname := "hut", category := some 1, amenities := some [1, 2, 1] }

/-- Create input with an amenity id (99) that resolves to no row. -/
def createBadAmenity : RoomCreateInput :=
  { schema_valid := true, rname := "hut", category := some 1, amenities := some [1, 99] }

/-- Create input whose body has no amenities key. -/
def createNoAmenities : RoomCreateInput :=
  { schema_valid := true, rname := "hut", category := some 1, amenities := none }

/-- Create input naming a category of kind experiences. -/
def createExperienceCat : RoomCreateInput :=
  { schema_valid := true, rname := "hut", category := some 2, amenities := some [1] }

def bkPast : Booking := { id := 1, room := 10, user := 7, kind := .room, check_in := 50, check_out := 55 }

def bkFuture : Booking := { id := 2, room := 10, user := 7, kind := .room, check_in := 120, check_out := 125 }

def bkExperience : Booking := { id := 3, room := 10, user := 7, kind := .experience, check_in := 130, check_out := 135 }

def bkOtherRoom : Booking := { id := 4, room := 77, user := 7, kind := .room, check_in := 140, check_out := 145 }

def bookingsStore : Store :=
  { amenities := [amWifi], categories := [catRooms], rooms := [roomCabin],
    bookings := [bkPast, bkFuture, bkExperience, bkOtherRoom], nextRoomId := 11 }

def roomOne : Room :=
  { id := 1, owner := 5, category := some 1, rname := "one", amenities := ∅ }

def roomTwo : Room :=
  { id := 2, owner := 5, category := some 1, rname := "two", amenities := ∅ }

def twoRoomStore : Store :=
  { amenities := [], categories := [catRooms], rooms := [roomOne, roomTwo],
    bookings := [], nextRoomId := 3 }

/-! Helper lemmas about the amenity-attachment loop of Rooms.post. -/

/-- If some identifier in the list resolves to no Amenity row, the loop raises
(returns none), whatever room it started from. -/
theorem attachAmenities_eq_none (s : Store) :
    ∀ (ids : List Nat) (room : Room),
      (∃ pk ∈ ids, s.amenities.find? (fun a => a.id == pk) = none) →
      attachAmenities s room ids = none := by
  intro ids
  induction ids with
  | nil => intro room h; simp at h
  | cons pk rest ih =>
    intro room h
    obtain ⟨q, hq, hnone⟩ := h
    rcases List.mem_cons.mp hq with rfl | hmem
    · simp [attachAmenities, hnone]
    · cases hfind : s.amenities.find? (fun a => a.id == pk) with
      | none => simp [attachAmenities, hfind]
      | some a =>
        simp only [attachAmenities, hfind]
        exact ih _ ⟨q, hmem, hnone⟩

/-- If every identifier in the list resolves, the loop succeeds and the final
amenity set is the starting set united with the identifiers of the list, as a
set: repeated identifiers collapse. -/
theorem attachAmenities_eq_some (s : Store) :
    ∀ (ids : List Nat) (room : Room),
      (∀ pk ∈ ids, (s.amenities.find? (fun a => a.id == pk)).isSome = true) →
      attachAmenities s room ids =
        some { room with amenities := room.amenities ∪ ids.toFinset } := by
  intro ids
  induction ids with
  | nil => intro room _; simp [attachAmenities]
  | cons pk rest ih =>
    intro room h
    have h1 := h pk (List.mem_cons_self pk rest)
    cases hfind : s.amenities.find? (fun a => a.id == pk) with
    | none => rw [hfind] at h1; simp at h1
    | some a =>
      have ha : a.id = pk := by
        have := List.find?_some hfind
        simpa using this
      simp only [attachAmenities, hfind]
      rw [ih _ (fun q hq => h q (List.mem_cons_of_mem _ hq))]
      congr 1
      simp only [ha, List.toFinset_cons]
      rw [Finset.insert_union, Finset.union_insert]

/-- C1: if an authenticated Room-create request passes schema validation and
category resolution but some amenity identifier in its amenity list resolves
to no Amenity row, the whole transaction rolls back — the returned store is
the original one, so no Room row and no amenity attachment persists — and the
operation fails with the 400 validation error ParseError "Amenity not found". -/
theorem roomsPost_unresolved_amenity_rolls_back
    (s : Store) (user : Nat) (input : RoomCreateInput) (cpk : Nat)
    (cat : Category) (ids : List Nat)
    (hvalid : input.schema_valid = true)
    (hcat : input.category = some cpk) (hcpk : cpk ≠ 0)
    (hfind : s.categories.find? (fun c => c.id == cpk) = some cat)
    (hkind : cat.kind = .rooms)
    (hids : input.amenities = some ids)
    (hbad : ∃ pk ∈ ids, s.amenities.find? (fun a => a.id == pk) = none) :
    roomsPost s (some user) input = (s, .err (.parseError "Amenity not found")) := by
  simp only [roomsPost, hvalid, hcat, hfind, hkind, hids, hcpk,
    attachAmenities_eq_none s ids _ hbad]
  simp

/-- C1 witness: user 7 creates a room over baseStore naming amenities [1, 99],
where 99 resolves to no row; the call fails and the store is unchanged. -/
theorem roomsPost_unresolved_amenity_rolls_back_witness :
    roomsPost baseStore (some 7) createBadAmenity
      = (baseStore, .err (.parseError "Amenity not found")) :=
  roomsPost_unresolved_amenity_rolls_back baseStore 7 createBadAmenity 1 catRooms
    [1, 99] (by decide) (by decide) (by decide) (by decide) (by decide)
    (by decide) (by decide)

/-- C4: an authenticated, schema-valid Room-create request whose category
exists but has kind experiences fails with a 400 validation error and creates
no Room: the store is returned unchanged. -/
theorem roomsPost_experience_category_rejected
    (s : Store) (user : Nat) (input : RoomCreateInput) (cpk : Nat)
    (cat : Category)
    (hvalid : input.schema_valid = true)
    (hcat : input.category = some cpk) (hcpk : cpk ≠ 0)
    (hfind : s.categories.find? (fun c => c.id == cpk) = some cat)
    (hkind : cat.kind = .experiences) :
    roomsPost s (some user) input
      = (s, .err (.parseError "The category kind should be \x27rooms\x27.")) := by
  simp [roomsPost, hvalid, hcat, hfind, hkind, hcpk]

/-- C4 witness: creating a room against category 2 (kind experiences) of
baseStore fails and leaves the store unchanged. -/
theorem roomsPost_experience_category_rejected_witness :
    roomsPost baseStore (some 7) createExperienceCat
      = (baseStore, .err (.parseError "The category kind should be \x27rooms\x27.")) :=
  roomsPost_experience_category_rejected baseStore 7 createExperienceCat 2
    catExperiences (by decide) (by decide) (by decide) (by decide) (by decide)

/-- C5: a valid Room-create request all of whose amenity identifiers resolve
creates exactly one Room whose amenity set is the set of listed identifiers —
a Finset, so duplicates in the input list collapse — owned by the requester
and carrying the resolved category. -/
theorem roomsPost_attaches_amenity_set
    (s : Store) (user : Nat) (input : RoomCreateInput) (cpk : Nat)
    (cat : Category) (ids : List Nat)
    (hvalid : input.schema_valid = true)
    (hcat : input.category = some cpk) (hcpk : cpk ≠ 0)
    (hfind : s.categories.find? (fun c => c.id == cpk) = some cat)
    (hkind : cat.kind = .rooms)
    (hids : input.amenities = some ids)
    (hall : ∀ pk ∈ ids, (s.amenities.find? (fun a => a.id == pk)).isSome = true) :
    roomsPost s (some user) input
      = ({ s with
            rooms := s.rooms ++ [createdRoom s user input.rname cat ids]
            nextRoomId := s.nextRoomId + 1 },
         .ok (.room (createdRoom s user input.rname cat ids))) ∧
    (createdRoom s user input.rname cat ids).amenities = ids.toFinset ∧
    (createdRoom s user input.rname cat ids).owner = user := by
  refine ⟨?_, rfl, rfl⟩
  simp only [roomsPost, hvalid, hcat, hfind, hkind, hids, hcpk,
    attachAmenities_eq_some s ids _ hall]
  simp [createdRoom]

/-- C5 witness: user 7 creates a room over baseStore listing amenity 1 twice
and amenity 2 once; exactly one room appears, with amenity set {1, 2}. -/
theorem roomsPost_attaches_amenity_set_witness :
    roomsPost baseStore (some 7) createWithDupAmenities
      = ({ baseStore with
            rooms := baseStore.rooms ++ [createdRoom baseStore 7 "hut" catRooms [1, 2, 1]]
            nextRoomId := baseStore.nextRoomId + 1 },
         .ok (.room (createdRoom baseStore 7 "hut" catRooms [1, 2, 1]))) ∧
    (createdRoom baseStore 7 "hut" catRooms [1, 2, 1]).amenities = ({1, 2} : Finset Nat) :=
  ⟨(roomsPost_attaches_amenity_set baseStore 7 createWithDupAmenities 1 catRooms
      [1, 2, 1] (by decide) (by decide) (by decide) (by decide) (by decide)
      (by decide) (by decide)).1,
   by decide⟩

/-- C10: an authenticated Room-create request that passes schema and category
validation but whose body has no amenities key (or a value the for loop cannot
iterate) fails inside the transaction — the TypeError is swallowed by the
blanket except handler — so the call fails with ParseError "Amenity not found"
and no Room row persists: the store is returned unchanged. -/
theorem roomsPost_missing_amenities_field
    (s : Store) (user : Nat) (input : RoomCreateInput) (cpk : Nat)
    (cat : Category)
    (hvalid : input.schema_valid = true)
    (hcat : input.category = some cpk) (hcpk : cpk ≠ 0)
    (hfind : s.categories.find? (fun c => c.id == cpk) = some cat)
    (hkind : cat.kind = .rooms)
    (hids : input.amenities = none) :
    roomsPost s (some user) input = (s, .err (.parseError "Amenity not found")) := by
  simp [roomsPost, hvalid, hcat, hfind, hkind, hids, hcpk]

/-- C10 witness: a schema-valid create request over baseStore with category 1
and no amenities key fails with the amenity error and changes nothing. -/
theorem roomsPost_missing_amenities_field_witness :
    roomsPost baseStore (some 7) createNoAmenities
      = (baseStore, .err (.parseError "Amenity not found")) :=
  roomsPost_missing_amenities_field baseStore 7 createNoAmenities 1 catRooms
    (by decide) (by decide) (by decide) (by decide) (by decide) (by decide)

/-- C6: only the owner may update or delete a Room.  An anonymous requester is
rejected with NotAuthenticated (401); an authenticated requester naming a
nonexistent room id gets NotFound (404); an authenticated requester who is not
the owner gets PermissionDenied (403).  In every such failure the returned
store is the original one, so the Room is unchanged. -/
theorem roomDetail_owner_only_mutation
    (s : Store) (pk : Nat) (input : RoomUpdateInput) :
    (roomDetailPut s none pk input = (s, .err .notAuthenticated) ∧
      roomDetailDelete s none pk = (s, .err .notAuthenticated)) ∧
    (∀ user, s.rooms.find? (fun r => r.id == pk) = none →
      roomDetailPut s (some user) pk input = (s, .err .notFound) ∧
      roomDetailDelete s (some user) pk = (s, .err .notFound)) ∧
    (∀ user room, s.rooms.find? (fun r => r.id == pk) = some room →
      room.owner ≠ user →
      roomDetailPut s (some user) pk input = (s, .err .permissionDenied) ∧
      roomDetailDelete s (some user) pk = (s, .err .permissionDenied)) := by
  refine ⟨⟨rfl, rfl⟩, fun user hnone => ?_, fun user room hsome hne => ?_⟩
  · constructor <;> simp [roomDetailPut, roomDetailDelete, hnone]
  · constructor <;> simp [roomDetailPut, roomDetailDelete, hsome, hne]

/-- C6 witness: over baseStore (room 10 owned by user 5), an anonymous update
is rejected 401, an update of the missing room 99 is rejected 404, and an
update and a delete by user 9 are rejected 403, each leaving the store as it
was. -/
theorem roomDetail_owner_only_mutation_witness :
    roomDetailPut baseStore none 10 updateNameOnly
      = (baseStore, .err .notAuthenticated) ∧
    roomDetailPut baseStore (some 9) 99 updateNameOnly
      = (baseStore, .err .notFound) ∧
    roomDetailPut baseStore (some 9) 10 updateNameOnly
      = (baseStore, .err .permissionDenied) ∧
    roomDetailDelete baseStore (some 9) 10
      = (baseStore, .err .permissionDenied) :=
  ⟨(roomDetail_owner_only_mutation baseStore 10 updateNameOnly).1.1,
   ((roomDetail_owner_only_mutation baseStore 99 updateNameOnly).2.1 9
      (by decide)).1,
   ((roomDetail_owner_only_mutation baseStore 10 updateNameOnly).2.2 9 roomCabin
      (by decide) (by decide)).1,
   ((roomDetail_owner_only_mutation baseStore 10 updateNameOnly).2.2 9 roomCabin
      (by decide) (by decide)).2⟩

/-- C7: for a room that exists, RoomBookings.get returns, with the store
unchanged, exactly the bookings of that room of kind room with check_in
strictly after the as-of date — never one with check_in on or before it, nor
one of another kind or room — and, when the booking table is ordered by
check_in (modelled from the spec, since the Booking model is outside src),
the returned list is ordered by check_in ascending. -/
theorem roomBookingsGet_upcoming
    (s : Store) (pk today : Nat) (room : Room)
    (hroom : s.rooms.find? (fun r => r.id == pk) = some room)
    (hsorted : bookingsSortedByCheckIn s) :
    roomBookingsGet s pk today
      = (s, .ok (.bookings (upcomingRoomBookings s room today))) ∧
    (∀ b, b ∈ upcomingRoomBookings s room today ↔
      b ∈ s.bookings ∧ b.room = room.id ∧ b.kind = BookingKind.room ∧
        today < b.check_in) ∧
    List.Sorted (fun a b => a.check_in ≤ b.check_in)
      (upcomingRoomBookings s room today) := by
  refine ⟨by simp [roomBookingsGet, hroom], fun b => ?_, ?_⟩
  · simp [upcomingRoomBookings, List.mem_filter, and_assoc]
  · exact List.Pairwise.filter _ hsorted

/-- C7 witness: over bookingsStore, whose booking table is sorted by check_in
and holds a past booking, a future booking, an experience booking and a
booking of another room, listing room 10 as of day 100 returns exactly the
future room-kind booking, in order. -/
theorem roomBookingsGet_upcoming_witness :
    roomBookingsGet bookingsStore 10 100
      = (bookingsStore, .ok (.bookings (upcomingRoomBookings bookingsStore roomCabin 100))) ∧
    List.Sorted (fun a b => a.check_in ≤ b.check_in)
      (upcomingRoomBookings bookingsStore roomCabin 100) ∧
    upcomingRoomBookings bookingsStore roomCabin 100 = [bkFuture] :=
  ⟨(roomBookingsGet_upcoming bookingsStore 10 100 roomCabin (by decide)
      (by decide)).1,
   (roomBookingsGet_upcoming bookingsStore 10 100 roomCabin (by decide)
      (by decide)).2.2,
   by decide⟩

/-- C2 fails on the code: the re-attachment statement of RoomDetail.put sits
outside the fetch loop (src/rooms/views.py line 143), so an update of a room
with amenity set {1, 2} to the list [2, 3] commits the amenity set {3} — only
the last resolved amenity — instead of the full replacement {2, 3}. -/
theorem roomDetailPut_attaches_only_last_amenity :
    roomDetailPut baseStore (some 5) 10 updateAmenitiesBC
      = ({ baseStore with rooms := [{ roomCabin with amenities := {3} }] },
         .ok (.room { roomCabin with amenities := {3} })) ∧
    roomCabin.amenities = {1, 2} ∧
    ¬ ({3} : Finset Nat) = ({2, 3} : Finset Nat) := by decide

/-- C3 fails on the code: a successful owner update whose body has no
amenities key commits the field change (room 10 is renamed in the store) but
the response carries serializer.errors — the try/else clause at line 149 of
src/rooms/views.py — rather than the updated Room. -/
theorem roomDetailPut_returns_errors_body_without_amenities :
    roomDetailPut baseStore (some 5) 10 updateNameOnly
      = ({ baseStore with rooms := [{ roomCabin with rname := "villa" }] },
         .ok .errors) := by decide

/-- C8 fails on the code: an update by the owner of room 10 whose body fails
schema validation is answered by raising NotAuthenticated (the slip at line
151 of src/rooms/views.py), not by a 400 validation response. -/
theorem roomDetailPut_invalid_body_raises_notAuthenticated :
    roomDetailPut baseStore (some 5) 10 invalidBodyInput
      = (baseStore, .err .notAuthenticated) ∧
    ¬ roomDetailPut baseStore (some 5) 10 invalidBodyInput
      = (baseStore, .badRequest) := by decide

/-- C9 (amended): GET /rooms returns the complete room list with the store
unchanged; the handler never reads the query parameters, so there is no
pagination and no page parameter handling. -/
theorem roomsGet_returns_all_rooms (s : Store) (params : List (String × String)) :
    roomsGet s params = (s, .ok (.roomList s.rooms)) := rfl

/-- C9 counterexample: over a store of two rooms, GET /rooms with the query
parameter page=2 returns the full two-room list, which no pagination of any
positive page size would return for page 2 — every such slice drops the first
room.  So the list is not paginated by the page parameter. -/
theorem roomsGet_not_paginated :
    roomsGet twoRoomStore [("page", "2")]
      = (twoRoomStore, .ok (.roomList [roomOne, roomTwo])) ∧
    ¬ ∃ pageSize, 1 ≤ pageSize ∧
        paginate pageSize 2 [roomOne, roomTwo] = [roomOne, roomTwo] := by
  constructor
  · rfl
  · rintro ⟨n, hn, h⟩
    have hlen : (paginate n 2 [roomOne, roomTwo]).length ≤ 2 - n := by
      simp only [paginate, List.length_take, List.length_drop, List.length_cons,
        List.length_nil]
      omega
    rw [h] at hlen
    simp only [List.length_cons, List.length_nil] at hlen
    omega

end AirbnbClone
